import Mathlib

/-!
Shallow embedding of `src/text_classification/tutorial.ipynb`: a notebook that
fine-tunes DistilBERT for binary sentiment classification on IMDb and runs
inference. The notebook itself only sequences calls into external libraries
(`datasets`, `transformers`, `evaluate`, `numpy`); the definitions below embed
the notebook's own code faithfully and model the documented behaviour of the
external calls where a claim needs it.
-/

namespace NLPTutorial

/-- An example of the IMDb dataset as returned by the external
`load_dataset("imdb")` call: a movie-review `text` and an integer `label`
(per the notebook, 0 for a negative review, 1 for a positive review). -/
structure RawExample where
  text : String
  label : ℕ
deriving DecidableEq

/-- Output of the external DistilBERT tokenizer for one text: the token id
sequence and the attention mask. The tokenizer itself is external; it is kept
abstract as a function `String → Bool → TokOutput` (second argument is the
`truncation` flag). -/
structure TokOutput where
  input_ids : List ℕ
  attention_mask : List ℕ
deriving DecidableEq

/-- A tokenized IMDb example: `Dataset.map` keeps the original columns and
adds the columns produced by the mapped function. -/
structure TokenizedExample where
  text : String
  label : ℕ
  input_ids : List ℕ
  attention_mask : List ℕ
deriving DecidableEq

/-- Embedding of the notebook's
`def preprocess_function(examples): return tokenizer(examples["text"], truncation=True)`,
per example of the batch, with the external tokenizer abstract. -/
def preprocess_function (tokenizer : String → Bool → TokOutput)
    (examples : RawExample) : TokOutput :=
  tokenizer examples.text true

/-- Modelled from the documented behaviour of the external
`datasets.Dataset.map` with `batched=True` and no `remove_columns`: each
example keeps its original columns and gains the columns the function
returns. -/
def datasetMap (f : RawExample → TokOutput) (ds : List RawExample) :
    List TokenizedExample :=
  ds.map fun e => ⟨e.text, e.label, (f e).input_ids, (f e).attention_mask⟩

/-- Embedding of `tokenized_imdb = imdb.map(preprocess_function, batched=True)`. -/
def tokenized_imdb (tokenizer : String → Bool → TokOutput)
    (imdb : List RawExample) : List TokenizedExample :=
  datasetMap (preprocess_function tokenizer) imdb

/-- Tail of `np.argmax` over one row: scan the remaining entries keeping the
index of the first maximum seen so far (`np.argmax` returns the first index of
the maximum, so the best index is replaced only on a strictly larger score). -/
def argmaxGo : List ℚ → ℕ → ℕ → ℚ → ℕ
  | [], _, best, _ => best
  | x :: xs, i, best, m =>
      if m < x then argmaxGo xs (i + 1) i x else argmaxGo xs (i + 1) best m

/-- Embedding of `np.argmax(row)` for one row of the predictions matrix
(`np.argmax(predictions, axis=1)` applies this to every row). -/
def npArgmax : List ℚ → ℕ
  | [] => 0
  | x :: xs => argmaxGo xs 1 0 x

/-- Modelled from the documented behaviour of the external
`evaluate.load("accuracy")` module: `compute(predictions=…, references=…)`
returns the fraction of predictions equal to their reference. -/
def accuracyCompute (predictions references : List ℕ) : ℚ :=
  (((predictions.zip references).countP fun pr => pr.1 == pr.2 : ℕ) : ℚ) /
    references.length

/-- Embedding of the notebook's `compute_metrics`: destructure `eval_pred`
into `(predictions, labels)`, take the row-wise argmax of `predictions`, and
pass the result together with `labels` to the accuracy metric. -/
def compute_metrics (eval_pred : List (List ℚ) × List ℕ) : ℚ :=
  accuracyCompute (eval_pred.1.map npArgmax) eval_pred.2

/-- Spec-side description of what `compute_metrics` should produce (from the
claim wording): the number of rows whose argmax equals the corresponding
label. -/
def specArgmaxMatches : List (List ℚ) → List ℕ → ℕ
  | p :: ps, l :: ls =>
      (if npArgmax p = l then 1 else 0) + specArgmaxMatches ps ls
  | _, _ => 0

lemma countP_zip_argmax (preds : List (List ℚ)) (labels : List ℕ) :
    (((preds.map npArgmax).zip labels).countP fun pr => pr.1 == pr.2) =
      specArgmaxMatches preds labels := by
  induction preds generalizing labels with
  | nil => cases labels <;> simp [specArgmaxMatches]
  | cons p ps ih =>
      cases labels with
      | nil => simp [specArgmaxMatches]
      | cons l ls =>
          simp only [List.map_cons, List.zip_cons_cons, List.countP_cons,
            specArgmaxMatches, ih]
          by_cases h : npArgmax p = l
          · simp [h]
            omega
          · simp [h]

lemma argmaxGo_lt (xs : List ℚ) :
    ∀ (i best : ℕ) (m : ℚ), best < i → argmaxGo xs i best m < i + xs.length := by
  induction xs with
  | nil => intro i best m h; simpa [argmaxGo] using h
  | cons x xs ih =>
      intro i best m h
      simp only [argmaxGo]
      by_cases hx : m < x
      · simp only [hx, if_true]
        have := ih (i + 1) i x (Nat.lt_succ_self i)
        simpa [Nat.add_assoc, Nat.add_comm, Nat.add_left_comm] using this
      · simp only [hx, if_false]
        have := ih (i + 1) best m (Nat.lt_succ_of_lt h)
        simpa [Nat.add_assoc, Nat.add_comm, Nat.add_left_comm] using this

lemma npArgmax_lt_length (l : List ℚ) (h : l ≠ []) : npArgmax l < l.length := by
  cases l with
  | nil => exact absurd rfl h
  | cons x xs =>
      have := argmaxGo_lt xs 1 0 x Nat.one_pos
      simpa [npArgmax, Nat.add_comm] using this

/-- Embedding of `id2label = {0: "NEGATIVE", 1: "POSITIVE"}` as an
association list. -/
def id2label : List (ℕ × String) := [(0, "NEGATIVE"), (1, "POSITIVE")]

/-- Embedding of `label2id = {"NEGATIVE": 0, "POSITIVE": 1}` as an
association list. -/
def label2id : List (String × ℕ) := [("NEGATIVE", 0), ("POSITIVE", 1)]

/-- The `num_labels=2` keyword argument of the
`AutoModelForSequenceClassification.from_pretrained` call. -/
def num_labels : ℕ := 2

/-- Modelled from the spec: `load_dataset("imdb")` is an external call, and
per the notebook every example of the loaded dataset has a label that is
either 0 (negative review) or 1 (positive review). -/
def imdbWellFormed (ds : List RawExample) : Prop :=
  ∀ e ∈ ds, e.label = 0 ∨ e.label = 1

/-- A Python keyword-argument value as passed in the notebook: a string, a
rational number, a natural number, or a boolean. -/
inductive PyVal where
  | s : String → PyVal
  | q : ℚ → PyVal
  | n : ℕ → PyVal
  | b : Bool → PyVal
deriving DecidableEq

/-- Embedding of the `TrainingArguments(...)` call: the exact list of keyword
arguments the notebook passes, in source order, with their values. -/
def training_args : List (String × PyVal) :=
  [("output_dir", .s "my_awesome_model"),
   ("learning_rate", .q (2 / 100000)),
   ("per_device_train_batch_size", .n 16),
   ("per_device_eval_batch_size", .n 16),
   ("num_train_epochs", .n 2),
   ("weight_decay", .q (1 / 100)),
   ("eval_strategy", .s "epoch"),
   ("save_strategy", .s "epoch"),
   ("load_best_model_at_end", .b true)]

/-- The task argument of the inference `pipeline(...)` call. -/
def pipelineTask : String := "sentiment-analysis"

/-- The `model=` argument of the inference `pipeline(...)` call: the notebook
instantiates the classifier from the Hub checkpoint id
`stevhliu/my_awesome_model`. -/
def pipelineModel : String := "stevhliu/my_awesome_model"

/-- The operations the notebook's code cells perform, one constructor per
statement of interest, in the vocabulary of the spec's pipeline description. -/
inductive Op where
  | loadDatasetOp
  | inspectExample
  | loadTokenizerOp
  | definePreprocess
  | tokenizeMap
  | buildCollator
  | loadMetric
  | defineComputeMetrics
  | defineLabelMaps
  | loadModel
  | defineTrainingArgs
  | configureTrainer
  | trainCall
  | defineText
  | runPipelineOp
deriving DecidableEq

/-- The notebook's trace: its code cells in top-to-bottom order (a Jupyter
notebook run from top to bottom executes the cells in this order; the cell
that builds `training_args`, constructs the `Trainer` and calls `train()` is
one cell whose three statements execute in source order). -/
def notebookTrace : List Op :=
  [.loadDatasetOp, .inspectExample, .loadTokenizerOp, .definePreprocess,
   .tokenizeMap, .buildCollator, .loadMetric, .defineComputeMetrics,
   .defineLabelMaps, .loadModel, .defineTrainingArgs, .configureTrainer,
   .trainCall, .defineText, .runPipelineOp]

/-- The execution environment the error-handling claim is about: whether the
optional scikit-learn dependency of the accuracy metric is installed. -/
structure NotebookEnv where
  sklearnInstalled : Bool

/-- The ImportError message the external `evaluate` library raises when
scikit-learn is missing (as recorded in the notebook output, apostrophes
elided). -/
def importErrorMessage : String :=
  "ImportError: To be able to use evaluate-metric/accuracy, you need to install the following dependencies [scikit-learn]"

/-- Modelled from the documented behaviour of the external
`evaluate.load("accuracy")` call: it raises an ImportError naming the missing
scikit-learn dependency when that optional dependency is absent, and returns
the metric module otherwise. -/
def evaluateLoadAccuracy (env : NotebookEnv) : Except String Unit :=
  if env.sklearnInstalled then .ok () else .error importErrorMessage

/-- The notebook run as exception propagation: each cell either succeeds or
raises; the notebook installs no try/except handler anywhere, so a raised
error aborts the run and reaches the output unchanged. Only the metric-load
cell can raise in this model; every other cell is embedded as succeeding. -/
def runNotebook (env : NotebookEnv) : Except String Unit := do
  let _ ← Except.ok ()            -- load_dataset("imdb")
  let _ ← Except.ok ()            -- imdb["test"][0]
  let _ ← Except.ok ()            -- AutoTokenizer.from_pretrained
  let _ ← Except.ok ()            -- def preprocess_function
  let _ ← Except.ok ()            -- imdb.map(preprocess_function)
  let _ ← Except.ok ()            -- DataCollatorWithPadding
  let _ ← evaluateLoadAccuracy env  -- evaluate.load("accuracy"), uncaught
  let _ ← Except.ok ()            -- def compute_metrics
  let _ ← Except.ok ()            -- id2label / label2id
  let _ ← Except.ok ()            -- from_pretrained model
  let _ ← Except.ok ()            -- TrainingArguments / Trainer / train
  let _ ← Except.ok ()            -- text
  Except.ok ()                    -- pipeline / classifier(text)

/-- A concrete stand-in tokenizer used to instantiate the universally
quantified theorems about preprocessing. -/
def demoTokenizer : String → Bool → TokOutput :=
  fun s b => ⟨[s.length], [if b then 1 else 0]⟩

/-- A concrete two-example dataset used to instantiate theorems. -/
def demoDataset : List RawExample := [⟨"great movie", 1⟩]

/-- A second concrete dataset, used by a different witness. -/
def demoDataset2 : List RawExample := [⟨"dull plot", 0⟩, ⟨"loved it", 1⟩]

/-- Claim C2: for every `eval_pred` pair `(predictions, labels)`,
`compute_metrics` reduces each prediction row to the index of its maximum
score and returns the accuracy of those indices against `labels`: the number
of rows whose argmax equals the corresponding label, divided by the number of
labels — and nothing else. -/
theorem compute_metrics_is_argmax_accuracy
    (preds : List (List ℚ)) (labels : List ℕ) :
    compute_metrics (preds, labels) =
      (specArgmaxMatches preds labels : ℚ) / labels.length := by
  simp [compute_metrics, accuracyCompute, countP_zip_argmax]

/-- Claim C10: for every predictions matrix with exactly 2 columns and at
least one row, the row-wise argmax taken inside `compute_metrics` yields only
values in \x7b0, 1\x7d. -/
theorem argmax_predictions_in_label_domain (preds : List (List ℚ))
    (hne : preds ≠ []) (hcols : ∀ row ∈ preds, row.length = 2) :
    ∀ k ∈ preds.map npArgmax, k = 0 ∨ k = 1 := by
  intro k hk
  rcases List.mem_map.mp hk with ⟨row, hrow, rfl⟩
  have hr2 : row.length = 2 := hcols row hrow
  have hnz : row ≠ [] := by intro hcon; rw [hcon] at hr2; simp at hr2
  have hlt := npArgmax_lt_length row hnz
  rw [hr2] at hlt
  omega

theorem argmax_predictions_in_label_domain_witness :
    ([[(1 : ℚ), 2], [3, 0]] : List (List ℚ)) ≠ [] ∧
    (∀ row ∈ ([[(1 : ℚ), 2], [3, 0]] : List (List ℚ)), row.length = 2) ∧
    ∀ k ∈ ([[(1 : ℚ), 2], [3, 0]] : List (List ℚ)).map npArgmax,
      k = 0 ∨ k = 1 :=
  ⟨by decide, by decide,
   argmax_predictions_in_label_domain _ (by decide) (by decide)⟩

/-- Claim C8: the label mappings are mutual inverses: for every id k in
\x7b0, 1\x7d, `label2id[id2label[k]] = k`, and for each of the two label names,
`id2label[label2id[s]] = s`. -/
theorem label_maps_mutual_inverses :
    (∀ k : Fin 2, (id2label.lookup (k : ℕ)).bind label2id.lookup =
      some (k : ℕ)) ∧
    (label2id.lookup "NEGATIVE").bind id2label.lookup = some "NEGATIVE" ∧
    (label2id.lookup "POSITIVE").bind id2label.lookup = some "POSITIVE" := by
  refine ⟨fun k => ?_, rfl, rfl⟩
  fin_cases k <;> rfl

/-- Claim C6: the `TrainingArguments` call sets exactly the named
hyperparameters the spec lists and no others: output directory
`my_awesome_model`, learning rate 2e-5, per-device train and eval batch sizes
16, 2 epochs, weight decay 0.01, evaluation and saving every epoch, and
`load_best_model_at_end` true. -/
theorem training_args_exact_hyperparameters :
    training_args.map Prod.fst =
      ["output_dir", "learning_rate", "per_device_train_batch_size",
       "per_device_eval_batch_size", "num_train_epochs", "weight_decay",
       "eval_strategy", "save_strategy", "load_best_model_at_end"] ∧
    training_args.lookup "output_dir" = some (.s "my_awesome_model") ∧
    training_args.lookup "learning_rate" = some (.q (2 / 100000)) ∧
    training_args.lookup "per_device_train_batch_size" = some (.n 16) ∧
    training_args.lookup "per_device_eval_batch_size" = some (.n 16) ∧
    training_args.lookup "num_train_epochs" = some (.n 2) ∧
    training_args.lookup "weight_decay" = some (.q (1 / 100)) ∧
    training_args.lookup "eval_strategy" = some (.s "epoch") ∧
    training_args.lookup "save_strategy" = some (.s "epoch") ∧
    training_args.lookup "load_best_model_at_end" = some (.b true) :=
  ⟨rfl, rfl, rfl, rfl, rfl, rfl, rfl, rfl, rfl, rfl⟩

/-- Claim C4: the notebook is a linear sequence with no branching or
repetition, in the fixed order: dataset loading before tokenization, before
collator construction, before trainer configuration, before the train call,
before the inference pipeline runs on the sample text. -/
theorem notebook_is_linear_sequence :
    notebookTrace.Nodup ∧
    notebookTrace.indexOf Op.loadDatasetOp <
      notebookTrace.indexOf Op.tokenizeMap ∧
    notebookTrace.indexOf Op.tokenizeMap <
      notebookTrace.indexOf Op.buildCollator ∧
    notebookTrace.indexOf Op.buildCollator <
      notebookTrace.indexOf Op.defineTrainingArgs ∧
    notebookTrace.indexOf Op.defineTrainingArgs <
      notebookTrace.indexOf Op.configureTrainer ∧
    notebookTrace.indexOf Op.configureTrainer <
      notebookTrace.indexOf Op.trainCall ∧
    notebookTrace.indexOf Op.trainCall <
      notebookTrace.indexOf Op.runPipelineOp ∧
    notebookTrace.count Op.loadDatasetOp = 1 ∧
    notebookTrace.count Op.tokenizeMap = 1 ∧
    notebookTrace.count Op.buildCollator = 1 ∧
    notebookTrace.count Op.configureTrainer = 1 ∧
    notebookTrace.count Op.trainCall = 1 ∧
    notebookTrace.count Op.runPipelineOp = 1 := by
  decide

/-- Claim C1 (refuted, code bug): the training run saves to output directory
`my_awesome_model`, but the inference pipeline is instantiated from the Hub
checkpoint id `stevhliu/my_awesome_model`, which is not the model the
training invocation saved: classifying the sample text does not use the
notebook's fine-tuned weights. -/
theorem inference_model_not_training_output :
    training_args.lookup "output_dir" = some (.s "my_awesome_model") ∧
    pipelineModel = "stevhliu/my_awesome_model" ∧
    some (PyVal.s pipelineModel) ≠ training_args.lookup "output_dir" := by
  refine ⟨rfl, rfl, ?_⟩
  decide

/-- Claim C3: when the accuracy metric's optional scikit-learn dependency is
missing, the `evaluate.load("accuracy")` cell raises an ImportError that the
notebook does not catch, transform, or recover from: the run aborts with
exactly the external library's error. -/
theorem metric_load_error_propagates (env : NotebookEnv)
    (h : env.sklearnInstalled = false) :
    runNotebook env = .error importErrorMessage := by
  have henv : env = ⟨false⟩ := by
    obtain ⟨b⟩ := env
    simp only [NotebookEnv.mk.injEq]
    exact h
  rw [henv]
  rfl

theorem metric_load_error_propagates_witness :
    (NotebookEnv.mk false).sklearnInstalled = false ∧
    runNotebook ⟨false⟩ = .error importErrorMessage :=
  ⟨rfl, metric_load_error_propagates ⟨false⟩ rfl⟩

/-- Claim C5: the label space is exactly \x7b0, 1\x7d: the model is loaded with
`num_labels = 2`, the id-to-label and label-to-id maps cover precisely the
ids 0 ("NEGATIVE") and 1 ("POSITIVE") and no others, and every label of a
well-formed IMDb dataset lies in the domain of `id2label`. -/
theorem label_space_is_binary :
    num_labels = 2 ∧
    id2label.map Prod.fst = [0, 1] ∧
    label2id.map Prod.snd = [0, 1] ∧
    id2label.lookup 0 = some "NEGATIVE" ∧
    id2label.lookup 1 = some "POSITIVE" ∧
    label2id.lookup "NEGATIVE" = some 0 ∧
    label2id.lookup "POSITIVE" = some 1 ∧
    ∀ ds : List RawExample, imdbWellFormed ds →
      ∀ e ∈ ds, e.label ∈ id2label.map Prod.fst := by
  refine ⟨rfl, rfl, rfl, rfl, rfl, rfl, rfl, fun ds hwf e he => ?_⟩
  rcases hwf e he with h0 | h1
  · simp [id2label, h0]
  · simp [id2label, h1]

theorem label_space_is_binary_witness :
    imdbWellFormed demoDataset2 ∧
    ∀ e ∈ demoDataset2, e.label ∈ id2label.map Prod.fst :=
  ⟨by unfold imdbWellFormed; decide,
   label_space_is_binary.2.2.2.2.2.2.2 demoDataset2
     (by unfold imdbWellFormed; decide)⟩

/-- Claim C7: preprocessing is exactly one batched `map` over the dataset
that applies the tokenizer to each example's `text` field with truncation
enabled: the mapped dataset has the same length, and each element's tokenizer
columns are the tokenizer's output on that element's text with the truncation
flag set. -/
theorem preprocessing_single_tokenizer_map
    (tok : String → Bool → TokOutput) (imdb : List RawExample) (i : ℕ)
    (h : i < imdb.length) (h2 : i < (tokenized_imdb tok imdb).length) :
    (tokenized_imdb tok imdb).length = imdb.length ∧
    ((tokenized_imdb tok imdb).get ⟨i, h2⟩).input_ids =
      (tok (imdb.get ⟨i, h⟩).text true).input_ids ∧
    ((tokenized_imdb tok imdb).get ⟨i, h2⟩).attention_mask =
      (tok (imdb.get ⟨i, h⟩).text true).attention_mask := by
  refine ⟨by simp [tokenized_imdb, datasetMap], ?_, ?_⟩ <;>
    simp [tokenized_imdb, datasetMap, preprocess_function]

theorem preprocessing_single_tokenizer_map_witness :
    (tokenized_imdb demoTokenizer demoDataset).length = demoDataset.length ∧
    ((tokenized_imdb demoTokenizer demoDataset).get ⟨0, by decide⟩).input_ids =
      (demoTokenizer (demoDataset.get ⟨0, by decide⟩).text true).input_ids ∧
    ((tokenized_imdb demoTokenizer demoDataset).get
        ⟨0, by decide⟩).attention_mask =
      (demoTokenizer (demoDataset.get ⟨0, by decide⟩).text
        true).attention_mask :=
  preprocessing_single_tokenizer_map demoTokenizer demoDataset 0
    (by decide) (by decide)

/-- Claim C9: the tokenizing `map` only adds tokenizer-output columns: every
example of the tokenized dataset keeps its original `text` and `label` fields
unchanged from the loaded dataset. -/
theorem map_preserves_text_and_label
    (tok : String → Bool → TokOutput) (imdb : List RawExample) (i : ℕ)
    (h : i < imdb.length) (h2 : i < (tokenized_imdb tok imdb).length) :
    ((tokenized_imdb tok imdb).get ⟨i, h2⟩).text = (imdb.get ⟨i, h⟩).text ∧
    ((tokenized_imdb tok imdb).get ⟨i, h2⟩).label = (imdb.get ⟨i, h⟩).label := by
  constructor <;> simp [tokenized_imdb, datasetMap]

theorem map_preserves_text_and_label_witness :
    ((tokenized_imdb demoTokenizer demoDataset2).get ⟨1, by decide⟩).text =
      (demoDataset2.get ⟨1, by decide⟩).text ∧
    ((tokenized_imdb demoTokenizer demoDataset2).get ⟨1, by decide⟩).label =
      (demoDataset2.get ⟨1, by decide⟩).label :=
  map_preserves_text_and_label demoTokenizer demoDataset2 1
    (by decide) (by decide)

end NLPTutorial
